import Mathlib

/-!
Shallow embedding of the session/authorization guard and the CRUD form
handlers of the AdvancedRAGEngine React front end
(`src/frontend-react/src` and the unnamed `CreateOrgModal` component).

State held in React hooks and in `localStorage` is made explicit; each
event handler becomes a pure function from the old state (plus the
outcome of the network call it awaits, passed as a parameter) to the new
state. `none` models JavaScript `null`/`undefined`; JS truthiness of the
strings read from `localStorage` is modelled explicitly.
-/

namespace RAGFrontend

/-- A user identity as held in React state and serialized to storage:
`{ username, role }`. Roles are the raw strings the code compares. -/
structure UserIdent where
  username : String
  role : String
deriving DecidableEq, Repr

/-- The two persisted fields in `localStorage`: keys `"user"` (serialized
user JSON) and `"token"`. `none` models an absent key (`getItem` yields
`null`). -/
structure LocalStorage where
  user : Option String
  token : Option String
deriving DecidableEq, Repr

/-- JS truthiness of a `localStorage.getItem` result: `null` and the empty
string are falsy, every other string truthy. -/
def truthy : Option String → Bool
  | some s => s ≠ ""
  | none => false

/-- The value `setToken` in `api.js` assigns to
`axios.defaults.headers.common["Authorization"]`: `Bearer <token>` when the
token is truthy, the empty string otherwise. The assignment always stores a
string; it never deletes the header entry. -/
def setTokenHeader : Option String → String
  | some t => if t = "" then "" else "Bearer " ++ t
  | none => ""

/-- Client state relevant to the session guard: the in-memory React `user`
state of `App.jsx`, the persisted `localStorage`, and the axios default
Authorization header (`none` means the header entry is absent, `some v`
means it is present with value `v`, so it is attached to every outbound
request). -/
structure AppState where
  user : Option UserIdent
  storage : LocalStorage
  authHeader : Option String
deriving DecidableEq, Repr

/-- Effect of `setToken tok` on the client state: the axios default
Authorization header entry is assigned `setTokenHeader tok`. It is set in
every case, never removed. -/
def applySetToken (tok : Option String) (s : AppState) : AppState :=
  { s with authHeader := some (setTokenHeader tok) }

/-- `handleLogout` in `App.jsx`: `setUser(null)`, remove the `"user"` and
`"token"` keys from `localStorage`, then `setToken(null)`. -/
def logout (s : AppState) : AppState :=
  applySetToken none { s with user := none, storage := { user := none, token := none } }

/-- The restore effect in `App.jsx` (the `useEffect` run at startup): read
both stored fields; when both are truthy, try to `JSON.parse` the stored
user — on success set the in-memory user and restore the token header, on a
parse exception (caught by the surrounding `try`) remove both keys from
storage. When either field is missing or falsy, do nothing. `JSON.parse` is
modelled by the `parse` parameter: `none` stands for a thrown, caught
exception, so `restore` is a total function — it never raises to its
caller. -/
def restore (parse : String → Option UserIdent) (s : AppState) : AppState :=
  if truthy s.storage.user && truthy s.storage.token then
    match parse (s.storage.user.getD "") with
    | some u => applySetToken (some (s.storage.token.getD "")) { s with user := some u }
    | none => { s with storage := { user := none, token := none } }
  else s

/-- `isAdmin` in `Dashboard.jsx`: the strict comparison of the session
user's role with the string `admin`. -/
def isAdmin (role : String) : Bool := role = "admin"

/-- `isEditor` in `Dashboard.jsx`. -/
def isEditor (role : String) : Bool := role = "editor"

/-- Whether `Dashboard.jsx` renders the Create Organization control (the
admin card): it is guarded by `isAdmin` alone. This is the code's
realization of the spec's `can("createOrg")`. -/
def showCreateOrgControl (role : String) : Bool := isAdmin role

/-- Whether `Dashboard.jsx` renders the per-organization `+ User` and
`Users` controls (user creation and the management modal through which
deletion happens): guarded by `isAdmin || isEditor`. -/
def showUserControls (role : String) : Bool := isAdmin role || isEditor role

/-- One entry of the role `<select>` options in `CreateUserModal.jsx`. -/
structure RoleOption where
  value : String
  label : String
deriving DecidableEq, Repr

/-- `getAvailableRoles` in `CreateUserModal.jsx`: admins may assign viewer,
editor and admin; editors viewer and editor; any other role falls through
to the fallback list holding only viewer. -/
def getAvailableRoles (currentUserRole : String) : List RoleOption :=
  if currentUserRole = "admin" then
    [⟨"viewer", "Viewer"⟩, ⟨"editor", "Editor"⟩, ⟨"admin", "Admin"⟩]
  else if currentUserRole = "editor" then
    [⟨"viewer", "Viewer"⟩, ⟨"editor", "Editor"⟩]
  else
    [⟨"viewer", "Viewer"⟩]

/-- The shape of `err.response?.data` inspected by the catch blocks of the
two create modals: a Pydantic-style `detail` array of messages, a plain
`detail` string, or neither. -/
inductive ErrorData
  | detailList (msgs : List String)
  | detailMsg (msg : String)
  | noDetail
deriving DecidableEq, Repr

/-- The error message a create modal's catch block derives: join the
`detail` array with a comma, else show a truthy `detail` string, else the
given fallback text. -/
def errorMessage (fallback : String) : ErrorData → String
  | ErrorData.detailList msgs => String.intercalate ", " msgs
  | ErrorData.detailMsg m => if m = "" then fallback else m
  | ErrorData.noDetail => fallback

/-- JavaScript `String.prototype.trim` as used by the form validators:
drop leading and trailing whitespace characters. Defined over the
character list so that it evaluates by structural recursion. -/
def jsTrim (s : String) : String :=
  ⟨((s.data.dropWhile Char.isWhitespace).reverse.dropWhile Char.isWhitespace).reverse⟩

/-- Form state of `CreateOrgModal` (the unnamed component file). -/
structure OrgFormState where
  orgId : String
  orgName : String
  error : String
  loading : Bool
deriving DecidableEq, Repr

/-- `CreateOrgModal.handleSubmit`: clear the error, validate that both
trimmed fields are nonempty — on failure set the exact required-fields
message and return before the network call — otherwise issue `createOrg`
(its outcome is the `api` parameter; the fields are cleared on success, the
derived error shown on failure). The returned Boolean records whether the
network call was issued. -/
def createOrgSubmit (api : Except ErrorData Unit) (st : OrgFormState) :
    OrgFormState × Bool :=
  if jsTrim st.orgId = "" ∨ jsTrim st.orgName = "" then
    ({ st with error := "Organization ID and Name are required", loading := false }, false)
  else
    match api with
    | Except.ok _ =>
        ({ st with orgId := "", orgName := "", error := "", loading := false }, true)
    | Except.error e =>
        ({ st with error := errorMessage "Failed to create organization" e,
                   loading := false }, true)

/-- Form state of `CreateUserModal.jsx`. -/
structure UserFormState where
  username : String
  password : String
  role : String
  error : String
  loading : Bool
deriving DecidableEq, Repr

/-- `CreateUserModal.handleSubmit`: clear the error, validate that trimmed
username and password are nonempty — on failure set the required-fields
message and return before the network call — otherwise issue `createUser`;
on success reset username and password to empty and the role to `viewer`,
on failure show the derived error. The returned Boolean records whether the
network call was issued. -/
def createUserSubmit (api : Except ErrorData Unit) (st : UserFormState) :
    UserFormState × Bool :=
  if jsTrim st.username = "" ∨ jsTrim st.password = "" then
    ({ st with error := "Username and Password are required", loading := false }, false)
  else
    match api with
    | Except.ok _ =>
        ({ st with username := "", password := "", role := "viewer",
                   error := "", loading := false }, true)
    | Except.error e =>
        ({ st with error := errorMessage "Failed to create user" e,
                   loading := false }, true)

/-- One row of the user table in `UserManagementModal`. -/
structure UserEntry where
  username : String
  role : String
deriving DecidableEq, Repr

/-- State of `UserManagementModal`: the displayed user list, the error text
and the loading flag (the transient `deleting` marker, reset in `finally`,
is omitted). -/
structure UserMgmtState where
  users : List UserEntry
  error : String
  loading : Bool
deriving DecidableEq, Repr

/-- JS `x || fallback` on an optional string such as
`err.response?.data?.detail`: an absent or empty string is replaced by the
fallback. -/
def orElseStr (d : Option String) (fallback : String) : String :=
  match d with
  | some m => if m = "" then fallback else m
  | none => fallback

/-- `UserManagementModal.fetchUsers`: on a successful response display
`data.users || []` and clear the error; on a rejected call show the
response detail or the fallback text. The response's `users` field is
`none` when absent or null. -/
def fetchUsers (resp : Except (Option String) (Option (List UserEntry)))
    (st : UserMgmtState) : UserMgmtState :=
  match resp with
  | Except.ok data => { st with users := data.getD [], error := "", loading := false }
  | Except.error d =>
      { st with error := orElseStr d "Failed to load users", loading := false }

/-- `UserManagementModal.handleDeleteUser`: when the `window.confirm`
prompt is declined, return with nothing issued; otherwise issue
`deleteUser` — on success filter the displayed list by strict username
inequality, on failure show the response detail or the fallback text and
leave the list as it was. The returned Boolean records whether the delete
call was issued. -/
def handleDeleteUser (confirmed : Bool) (api : Except (Option String) Unit)
    (username : String) (st : UserMgmtState) : UserMgmtState × Bool :=
  if confirmed then
    match api with
    | Except.ok _ =>
        ({ st with users := st.users.filter (fun u => u.username != username) }, true)
    | Except.error d =>
        ({ st with error := orElseStr d "Failed to delete user" }, true)
  else (st, false)

/-- An organization as listed by the dashboard. -/
structure Org where
  org_id : String
  name : String
deriving DecidableEq, Repr

/-- State of `Dashboard.jsx` relevant to the organization list. -/
structure DashboardState where
  orgs : List Org
  error : String
  loading : Bool
deriving DecidableEq, Repr

/-- `Dashboard.fetchOrgs`: on a successful response display
`data.orgs || []` (the existing error text is not cleared); on a rejected
call show the fixed failure text. The response's `orgs` field is `none`
when absent or null. -/
def fetchOrgs (resp : Except Unit (Option (List Org))) (st : DashboardState) :
    DashboardState :=
  match resp with
  | Except.ok data => { st with orgs := data.getD [], loading := false }
  | Except.error _ => { st with error := "Failed to load organizations", loading := false }

/-- The startup state of `App.jsx` with a partial persisted session: the
serialized user is present but the token key is absent. -/
def partialStartState : AppState :=
  { user := none,
    storage := { user := some "stale-user-json", token := none },
    authHeader := none }

/-- C1 counterexample: at a partial persisted state (user field present,
token key absent) the restore effect yields the logged-out state but does
not clear the partial persisted state — the stale user field survives in
storage — contradicting the claim that `restore` clears any partial
persisted state from storage. -/
theorem C1_restore_counterexample :
    (restore (fun _ => none) partialStartState).user = none ∧
    (restore (fun _ => none) partialStartState).storage.user = some "stale-user-json" :=
  ⟨rfl, rfl⟩

/-- C1 (amended): for every startup state whose persisted session is
missing, partial (a falsy field), or malformed (both fields truthy but the
user JSON unparseable), the restore effect yields the logged-out state (the
in-memory user stays unset) and never raises (`restore` is total); however
storage is cleared only in the malformed case — on a missing or partial
payload the storage, including any partial leftover field, is left
unchanged. -/
theorem C1_restore_amended (parse : String → Option UserIdent) (s : AppState)
    (hstart : s.user = none)
    (hbad : truthy s.storage.user = false ∨ truthy s.storage.token = false ∨
      parse (s.storage.user.getD "") = none) :
    (restore parse s).user = none ∧
    (truthy s.storage.user = true → truthy s.storage.token = true →
      (restore parse s).storage = { user := none, token := none }) ∧
    ((truthy s.storage.user = true ∧ truthy s.storage.token = true → False) →
      (restore parse s).storage = s.storage) := by
  by_cases h : (truthy s.storage.user && truthy s.storage.token) = true
  · have h12 := Bool.and_eq_true_iff.mp h
    have hp : parse (s.storage.user.getD "") = none := by
      rcases hbad with hb | hb | hb
      · rw [h12.1] at hb; cases hb
      · rw [h12.2] at hb; cases hb
      · exact hb
    refine ⟨?_, fun _ _ => ?_, fun hc => (hc ⟨h12.1, h12.2⟩).elim⟩
    · simp [restore, h, hp, hstart]
    · simp [restore, h, hp]
  · refine ⟨?_, fun h1 h2 => (h (by simp [h1, h2])).elim, fun _ => ?_⟩
    · simp [restore, h, hstart]
    · simp [restore, h]

/-- C1 amended witness: the amended restore behaviour at the concrete
partial startup state, every hypothesis discharged: the state stays logged
out and the partial storage is left exactly as it was. -/
theorem C1_restore_amended_witness :
    (restore (fun _ => none) partialStartState).user = none ∧
    (restore (fun _ => none) partialStartState).storage = partialStartState.storage := by
  have h := C1_restore_amended (fun _ => none) partialStartState rfl
    (Or.inr (Or.inl rfl))
  exact ⟨h.1, h.2.2 (fun hh => absurd hh.2 (by decide))⟩

/-- C2 counterexample: for creator role viewer the code offers the fallback
option list containing exactly the viewer role — not the empty set the
claim states. -/
theorem C2_viewerRoles_counterexample :
    (getAvailableRoles "viewer").map RoleOption.value = ["viewer"] ∧
    getAvailableRoles "viewer" ≠ [] :=
  ⟨by decide, by decide⟩

/-- C2 (amended): the assignable-role lists offered at user creation are:
admin offers viewer, editor and admin; editor offers viewer and editor;
viewer (like any role other than admin and editor) falls through to the
fallback offering exactly the viewer role, not the empty set. -/
theorem C2_availableRoles_amended :
    (getAvailableRoles "admin").map RoleOption.value = ["viewer", "editor", "admin"] ∧
    (getAvailableRoles "editor").map RoleOption.value = ["viewer", "editor"] ∧
    (getAvailableRoles "viewer").map RoleOption.value = ["viewer"] :=
  ⟨by decide, by decide, by decide⟩

/-- C3: the create-organization control is denied to every role other than
admin — the admin card holding it is rendered only when `isAdmin` — and the
viewer role is denied the user-creation and user-management (deletion)
controls, which are rendered only for admin or editor. -/
theorem C3_role_gating (r : String) (h : r ≠ "admin") :
    showCreateOrgControl r = false ∧ showUserControls "viewer" = false := by
  constructor
  · simpa [showCreateOrgControl, isAdmin] using h
  · decide

/-- C3 witness: the gating theorem at the concrete role viewer. -/
theorem C3_role_gating_witness :
    showCreateOrgControl "viewer" = false ∧ showUserControls "viewer" = false :=
  C3_role_gating "viewer" (by decide)

/-- A concrete logged-in editor session used to exercise setToken and
logout. -/
def loggedInState : AppState :=
  { user := some { username := "alice", role := "editor" },
    storage := { user := some "alice-json", token := some "T" },
    authHeader := some "Bearer T" }

/-- C4 counterexample: after logout no session exists, yet the
Authorization default header entry is still attached, holding the empty
string — `setToken(null)` assigns the empty string rather than removing the
entry — contradicting the claim that no Authorization header is attached to
requests when no session exists. -/
theorem C4_header_counterexample :
    (logout loggedInState).user = none ∧
    (logout loggedInState).authHeader = some "" ∧
    (logout loggedInState).authHeader ≠ none :=
  ⟨rfl, rfl, by decide⟩

/-- C4 (amended): when a session exists — `setToken` was called with the
session's nonempty token t — the default header value is exactly
`Bearer t`, so every outbound request carries it; when `setToken` is called
with null (no session, as on logout), the header entry is assigned the
empty string: it is cleared but still present, not removed. -/
theorem C4_header_amended (s : AppState) (t : String) (h : t ≠ "") :
    (applySetToken (some t) s).authHeader = some ("Bearer " ++ t) ∧
    (applySetToken none s).authHeader = some "" := by
  constructor
  · simp [applySetToken, setTokenHeader, h]
  · rfl

/-- C4 witness: the amended header behaviour at a concrete token and a
concrete state. -/
theorem C4_header_amended_witness :
    (applySetToken (some "T") loggedInState).authHeader = some ("Bearer " ++ "T") ∧
    (applySetToken none loggedInState).authHeader = some "" :=
  C4_header_amended loggedInState "T" (by decide)

/-- C5: logout clears the in-memory user and the persisted identity and
token, is idempotent (a second logout produces the identical state), and
logout followed by restore yields exactly the logged-out state, whatever
the JSON parser would do. -/
theorem C5_logout_idempotent (s : AppState) (parse : String → Option UserIdent) :
    (logout s).user = none ∧
    (logout s).storage = { user := none, token := none } ∧
    logout (logout s) = logout s ∧
    restore parse (logout s) = logout s :=
  ⟨rfl, rfl, rfl, rfl⟩

/-- C6: a create-organization submission whose orgId or orgName trims to
the empty string (it is empty or whitespace-only) is rejected client-side:
the createOrg network call is not issued — whatever it would have answered
— and the displayed error is exactly the required-fields message. -/
theorem C6_createOrg_validation (api : Except ErrorData Unit) (st : OrgFormState)
    (h : jsTrim st.orgId = "" ∨ jsTrim st.orgName = "") :
    createOrgSubmit api st =
      ({ st with error := "Organization ID and Name are required", loading := false },
        false) := by
  unfold createOrgSubmit
  rw [if_pos h]

/-- A create-organization form with a whitespace-only organization id. -/
def orgFormWhitespaceId : OrgFormState :=
  { orgId := "   ", orgName := "ACME Corporation", error := "", loading := false }

/-- C6 witness: the validation theorem at a concrete whitespace-only orgId,
the would-be network outcome being success. -/
theorem C6_createOrg_validation_witness :
    createOrgSubmit (Except.ok ()) orgFormWhitespaceId =
      ({ orgFormWhitespaceId with
          error := "Organization ID and Name are required",
          loading := false }, false) :=
  C6_createOrg_validation (Except.ok ()) orgFormWhitespaceId (Or.inl (by decide))

/-- C7: a confirmed successful deletion of a username updates the displayed
list to its filter by strict username inequality: the new list is a
subsequence of the old one (every surviving entry unchanged, in the same
order), contains no entry with the deleted username, and every entry with a
different username survives with its multiplicity. -/
theorem C7_delete_removes_exactly (username : String) (st : UserMgmtState) :
    ((handleDeleteUser true (Except.ok ()) username st).1.users).Sublist st.users ∧
    (∀ u ∈ (handleDeleteUser true (Except.ok ()) username st).1.users,
      u.username ≠ username) ∧
    (∀ u : UserEntry, u.username ≠ username →
      ((handleDeleteUser true (Except.ok ()) username st).1.users).count u =
        st.users.count u) := by
  have hred : (handleDeleteUser true (Except.ok ()) username st).1.users =
      st.users.filter (fun u => u.username != username) := rfl
  rw [hred]
  refine ⟨List.filter_sublist _, ?_, ?_⟩
  · intro u hu
    simpa using (List.mem_filter.mp hu).2
  · intro u hu
    exact List.count_filter (by simpa using hu)

/-- C8: deletion is atomic with respect to the displayed list: declining
the confirmation prompt leaves the whole state unchanged and issues no
delete call; a rejected delete call leaves the user list unchanged; only
after the call succeeds is the list filtered. -/
theorem C8_delete_atomic (username : String) (st : UserMgmtState)
    (api : Except (Option String) Unit) (d : Option String) :
    handleDeleteUser false api username st = (st, false) ∧
    (handleDeleteUser true (Except.error d) username st).1.users = st.users ∧
    (handleDeleteUser true (Except.ok ()) username st).1.users =
      st.users.filter (fun u => u.username != username) :=
  ⟨rfl, rfl, rfl⟩

/-- C9: fetching is total on malformed successful responses: a successful
listUsers or listOrgs response whose users or orgs field is absent or null
makes the displayed list the empty list rather than an undefined value or a
raised error. -/
theorem C9_malformed_response_empty (stU : UserMgmtState) (stD : DashboardState) :
    (fetchUsers (Except.ok none) stU).users = [] ∧
    (fetchOrgs (Except.ok none) stD).orgs = [] :=
  ⟨rfl, rfl⟩

/-- C10: the create-user fields are reset only after a successful creation:
on a client-side validation failure the submission stops before the network
call and username, password and role keep their values; on a rejected API
call they likewise keep their values; on success username and password are
cleared and the role reset to viewer. -/
theorem C10_reset_only_on_success (api : Except ErrorData Unit)
    (st : UserFormState) (e : ErrorData) :
    (jsTrim st.username = "" ∨ jsTrim st.password = "" →
      (createUserSubmit api st).1.username = st.username ∧
      (createUserSubmit api st).1.password = st.password ∧
      (createUserSubmit api st).1.role = st.role ∧
      (createUserSubmit api st).2 = false) ∧
    (¬(jsTrim st.username = "" ∨ jsTrim st.password = "") →
      (createUserSubmit (Except.error e) st).1.username = st.username ∧
      (createUserSubmit (Except.error e) st).1.password = st.password ∧
      (createUserSubmit (Except.error e) st).1.role = st.role) ∧
    (¬(jsTrim st.username = "" ∨ jsTrim st.password = "") →
      (createUserSubmit (Except.ok ()) st).1.username = "" ∧
      (createUserSubmit (Except.ok ()) st).1.password = "" ∧
      (createUserSubmit (Except.ok ()) st).1.role = "viewer") := by
  refine ⟨fun h => ?_, fun h => ?_, fun h => ?_⟩
  · unfold createUserSubmit
    rw [if_pos h]
    exact ⟨rfl, rfl, rfl, rfl⟩
  · unfold createUserSubmit
    rw [if_neg h]
    exact ⟨rfl, rfl, rfl⟩
  · unfold createUserSubmit
    rw [if_neg h]
    exact ⟨rfl, rfl, rfl⟩

end RAGFrontend
